import Mathlib

/-!
Shallow embedding of the capability resilience and subscription-lifecycle
layer of the BrainDrive functional plugin template: the hooks
`useAPI` (src/hooks/useAPI.ts), `usePluginState` and `useTheme`
(src/hooks/usePluginState.ts), `usePageContext` and `useSettings`
(unnamed hook sources), together with spec-modelled definitions for the
ResilienceEngine and StateSyncManager whose implementation file
(`utils/errorHandling` / the host-side keyed-state manager) is not among
the repository sources.

Asynchronous capability calls are embedded by passing the outcome of each
call explicitly (`Except String _` : `error` = the call threw, `ok` = it
resolved). Each operation returns, besides its new reactive state, the
number of capability invocations it made and the exception (if any) it
propagates to its caller, so that retry counts and re-throw behaviour are
visible in the model.
-/

namespace Spec2Proof

/-- A JavaScript-like value that distinguishes `undefined`, `null`
and a proper value. -/
inductive JSVal (α : Type) where
  | undef : JSVal α
  | null : JSVal α
  | val : α → JSVal α
  deriving DecidableEq

/-- Outcome of one operation: the new reactive state, the value returned
to the caller, the number of capability invocations made, and the
exception propagated across the UI boundary (`none` = nothing thrown). -/
structure OpResult (S : Type) (R : Type) where
  state : S
  result : R
  calls : Nat
  thrown : Option String
  deriving DecidableEq

/-! ## useAPI (src/hooks/useAPI.ts) -/

/-- The `APIRequestState` of `useAPI`: `data` can be `null` (and the code
initialises it to `null`), `error` is a string or `null`. -/
structure APIRequestState (T : Type) where
  data : JSVal T
  loading : Bool
  error : Option String
  deriving DecidableEq

/-- `useState` initialiser of `useAPI`: `{ data: null, loading: false,
error: null }`. -/
def apiInitialState (T : Type) : APIRequestState T :=
  { data := JSVal.null, loading := false, error := none }

/-- `isAvailable` as each hook computes it: `!!service`. -/
def isAvailable {α : Type} (svc : Option α) : Bool :=
  svc.isSome

/-- The `get` verb of `useAPI`. The capability outcome is
`Except String (Option T)`: `error e` = `apiService.get` threw `e`,
`ok none` = it resolved to a falsy/non-object response (the code then
throws `NetworkError`), `ok (some d)` = it resolved to a response whose
`data` field is `d`. Absent capability: `setError` (which also clears
`loading`) and return `null` without calling the capability. -/
def apiGet {T : Type} (url : String) (svc : Option (Except String (Option T)))
    (s : APIRequestState T) : OpResult (APIRequestState T) (Option T) :=
  match svc with
  | none =>
      { state := { s with loading := false, error := some "API service not available" },
        result := none, calls := 0, thrown := none }
  | some outcome =>
      let s1 : APIRequestState T := { s with loading := true, error := none }
      match outcome with
      | Except.ok (some d) =>
          { state := { data := JSVal.val d, loading := false, error := none },
            result := some d, calls := 1, thrown := none }
      | Except.ok none =>
          let msg := "GET " ++ url ++ " failed: Invalid response format"
          { state := { s1 with loading := false, error := some msg },
            result := none, calls := 1, thrown := none }
      | Except.error e =>
          let msg := "GET " ++ url ++ " failed: " ++ e
          { state := { s1 with loading := false, error := some msg },
            result := none, calls := 1, thrown := none }

/-- The `post` verb of `useAPI`; the request body does not influence the
embedded control flow (it is passed through to the capability, whose
outcome is given explicitly). -/
def apiPost {T : Type} (url : String) (svc : Option (Except String (Option T)))
    (s : APIRequestState T) : OpResult (APIRequestState T) (Option T) :=
  match svc with
  | none =>
      { state := { s with loading := false, error := some "API service not available" },
        result := none, calls := 0, thrown := none }
  | some outcome =>
      let s1 : APIRequestState T := { s with loading := true, error := none }
      match outcome with
      | Except.ok (some d) =>
          { state := { data := JSVal.val d, loading := false, error := none },
            result := some d, calls := 1, thrown := none }
      | Except.ok none =>
          let msg := "POST " ++ url ++ " failed: Invalid response format"
          { state := { s1 with loading := false, error := some msg },
            result := none, calls := 1, thrown := none }
      | Except.error e =>
          let msg := "POST " ++ url ++ " failed: " ++ e
          { state := { s1 with loading := false, error := some msg },
            result := none, calls := 1, thrown := none }

/-- The `put` verb of `useAPI`. -/
def apiPut {T : Type} (url : String) (svc : Option (Except String (Option T)))
    (s : APIRequestState T) : OpResult (APIRequestState T) (Option T) :=
  match svc with
  | none =>
      { state := { s with loading := false, error := some "API service not available" },
        result := none, calls := 0, thrown := none }
  | some outcome =>
      let s1 : APIRequestState T := { s with loading := true, error := none }
      match outcome with
      | Except.ok (some d) =>
          { state := { data := JSVal.val d, loading := false, error := none },
            result := some d, calls := 1, thrown := none }
      | Except.ok none =>
          let msg := "PUT " ++ url ++ " failed: Invalid response format"
          { state := { s1 with loading := false, error := some msg },
            result := none, calls := 1, thrown := none }
      | Except.error e =>
          let msg := "PUT " ++ url ++ " failed: " ++ e
          { state := { s1 with loading := false, error := some msg },
            result := none, calls := 1, thrown := none }

/-- The `del` verb of `useAPI` (`delete`). On success the code replaces
the whole state with `{ data: null, loading: false, error: null }` and
returns `true`. -/
def apiDel {T : Type} (url : String) (svc : Option (Except String Unit))
    (s : APIRequestState T) : OpResult (APIRequestState T) Bool :=
  match svc with
  | none =>
      { state := { s with loading := false, error := some "API service not available" },
        result := false, calls := 0, thrown := none }
  | some outcome =>
      let s1 : APIRequestState T := { s with loading := true, error := none }
      match outcome with
      | Except.ok _ =>
          { state := { data := JSVal.null, loading := false, error := none },
            result := true, calls := 1, thrown := none }
      | Except.error e =>
          let msg := "DELETE " ++ url ++ " failed: " ++ e
          { state := { s1 with loading := false, error := some msg },
            result := false, calls := 1, thrown := none }

/-! ## usePluginState (src/hooks/usePluginState.ts) -/

/-- The reactive state of `usePluginState`: `state`, `isLoading`, `error`
`useState` variables and the `isMountedRef` mounted flag. -/
structure PSState (T : Type) where
  state : Option T
  isLoading : Bool
  error : Option String
  isMounted : Bool
  deriving DecidableEq

/-- Initial `usePluginState` state: `state = null`, `isLoading = false`,
`error = null`, mounted. -/
def psInit (T : Type) : PSState T :=
  { state := none, isLoading := false, error := none, isMounted := true }

/-- The `onSave` subscription handler of `usePluginState`: writes the
pushed state only when `isMountedRef.current` is still true. -/
def psHandleSavePush {T : Type} (s : PSState T) (saved : Option T) : PSState T :=
  if s.isMounted then { s with state := saved } else s

/-- The `onRestore` subscription handler of `usePluginState`. -/
def psHandleRestorePush {T : Type} (s : PSState T) (restored : Option T) : PSState T :=
  if s.isMounted then { s with state := restored } else s

/-- The `onClear` subscription handler of `usePluginState`: resets the
state to `null` when still mounted. -/
def psHandleClearPush {T : Type} (s : PSState T) : PSState T :=
  if s.isMounted then { s with state := none } else s

/-- The unmount cleanup of `usePluginState` (the effect that flips
`isMountedRef.current` to `false` on teardown). -/
def psUnmount {T : Type} (s : PSState T) : PSState T :=
  { s with isMounted := false }

/-- The subscription-effect cleanup of `usePluginState`:
`cleanupFns.forEach(fn => fn())`. There is no try/catch around the
unsubscribe calls, so the first one that throws propagates and the
remaining ones are skipped. Returns the number of unsubscribe functions
invoked and the propagated exception, if any. -/
def psCleanup : List (Except String Unit) → Nat × Option String
  | [] => (0, none)
  | f :: rest =>
      match f with
      | Except.ok _ =>
          let r := psCleanup rest
          (r.1 + 1, r.2)
      | Except.error e => (1, some e)

/-- The mount-time `loadState` of `usePluginState` (autoLoad path). The
capability outcome is the result of `service.getState()`; a read failure
is caught, recorded in `error`, and never re-thrown. Absent service or
`autoLoad = false`: no call is made. -/
def psLoadState {T : Type} (svc : Option (Except String (Option T)))
    (autoLoad : Bool) (s : PSState T) : OpResult (PSState T) Unit :=
  match svc, autoLoad with
  | none, _ =>
      { state := s, result := (), calls := 0, thrown := none }
  | some _, false =>
      { state := s, result := (), calls := 0, thrown := none }
  | some outcome, true =>
      let s1 : PSState T := { s with isLoading := true, error := none }
      match outcome with
      | Except.ok loaded =>
          let s2 := if s1.isMounted then { s1 with state := loaded } else s1
          let s3 := if s2.isMounted then { s2 with isLoading := false } else s2
          { state := s3, result := (), calls := 1, thrown := none }
      | Except.error e =>
          let s2 := if s1.isMounted then { s1 with error := some e } else s1
          let s3 := if s2.isMounted then { s2 with isLoading := false } else s2
          { state := s3, result := (), calls := 1, thrown := none }

/-- The `saveState` callback of `usePluginState`. Absent service: record
an error and return without calling the capability. Present service: set
loading, clear the error, call `service.saveState`; on success publish the
new state (mounted guard); on failure record the message and re-throw
(`throw err` in the source). -/
def psSaveState {T : Type} (svc : Option (Except String Unit)) (v : T)
    (s : PSState T) : OpResult (PSState T) Unit :=
  match svc with
  | none =>
      { state := { s with error := some "PluginState service is not available" },
        result := (), calls := 0, thrown := none }
  | some outcome =>
      let s1 : PSState T := { s with isLoading := true, error := none }
      match outcome with
      | Except.ok _ =>
          let s2 := if s1.isMounted then { s1 with state := some v } else s1
          let s3 := if s2.isMounted then { s2 with isLoading := false } else s2
          { state := s3, result := (), calls := 1, thrown := none }
      | Except.error e =>
          let s2 := if s1.isMounted then { s1 with error := some e } else s1
          let s3 := if s2.isMounted then { s2 with isLoading := false } else s2
          { state := s3, result := (), calls := 1, thrown := some e }

/-- The `clearState` callback of `usePluginState`, same shape as
`saveState` but resetting the local state to `null` on success; a failure
is recorded and re-thrown. -/
def psClearState {T : Type} (svc : Option (Except String Unit))
    (s : PSState T) : OpResult (PSState T) Unit :=
  match svc with
  | none =>
      { state := { s with error := some "PluginState service is not available" },
        result := (), calls := 0, thrown := none }
  | some outcome =>
      let s1 : PSState T := { s with isLoading := true, error := none }
      match outcome with
      | Except.ok _ =>
          let s2 := if s1.isMounted then { s1 with state := none } else s1
          let s3 := if s2.isMounted then { s2 with isLoading := false } else s2
          { state := s3, result := (), calls := 1, thrown := none }
      | Except.error e =>
          let s2 := if s1.isMounted then { s1 with error := some e } else s1
          let s3 := if s2.isMounted then { s2 with isLoading := false } else s2
          { state := s3, result := (), calls := 1, thrown := some e }

/-! ## useTheme (second hook in src/hooks/usePluginState.ts source file) -/

/-- The state of a `useTheme` binding: the published `currentTheme`, the
`listenerRef.current` slot (`true` = non-null), and whether the capability
still holds the registered change listener (`registered`). -/
structure ThemeState where
  currentTheme : String
  listenerRef : Bool
  registered : Bool
  deriving DecidableEq

/-- Initial `useTheme` state: `useState('light')`, no listener. -/
def themeInit : ThemeState :=
  { currentTheme := "light", listenerRef := false, registered := false }

/-- The `initTheme` mount effect of `useTheme` (no-errorHandler path):
read `getCurrentTheme()`, publish it, store the listener in
`listenerRef` and register it. If `getCurrentTheme` throws, the catch
block logs and nothing is set or registered. -/
def themeMount (getCur : Except String String) (s : ThemeState) : ThemeState :=
  match getCur with
  | Except.ok t => { currentTheme := t, listenerRef := true, registered := true }
  | Except.error _ => s

/-- A theme-change push from the capability. The capability invokes the
listener only while it is still registered; the listener body itself calls
`setCurrentTheme(newTheme)` with no mounted guard. -/
def themePush (s : ThemeState) (newTheme : String) : ThemeState :=
  if s.registered then { s with currentTheme := newTheme } else s

/-- The `useTheme` cleanup: if `listenerRef.current` is non-null, call
`removeThemeChangeListener` inside try/catch and null the ref. When the
removal throws, the catch logs it, the ref is not nulled (the assignment
follows the throwing call) and the capability still holds the listener.
Returns the new state, the number of removal calls made, and the
propagated exception (always `none`: the catch swallows it). -/
def themeTeardown (removal : Except String Unit) (s : ThemeState) :
    ThemeState × Nat × Option String :=
  if s.listenerRef then
    match removal with
    | Except.ok _ => ({ s with listenerRef := false, registered := false }, 1, none)
    | Except.error _ => (s, 1, none)
  else (s, 0, none)

/-- The `setTheme` callback of `useTheme`: absent service warns and
returns (no call); present service is called once, failures are caught
and logged. Returns (capability calls, propagated exception). -/
def setThemeOp (svc : Option (Except String Unit)) : Nat × Option String :=
  match svc with
  | none => (0, none)
  | some _ => (1, none)

/-- The `toggleTheme` callback of `useTheme`, same guard shape as
`setTheme`. -/
def toggleThemeOp (svc : Option (Except String Unit)) : Nat × Option String :=
  match svc with
  | none => (0, none)
  | some _ => (1, none)

/-! ## usePageContext (unnamed hook source, second part) -/

/-- The page context record published by `usePageContext`. -/
structure PageContextVal where
  pageId : String
  pageName : String
  pageRoute : String
  isStudioPage : Bool
  deriving DecidableEq

/-- The state of a `usePageContext` binding: the published context, the
`unsubscribeRef.current` slot, and whether the capability still holds the
subscription. -/
structure PCState where
  pageContext : Option PageContextVal
  unsubscribeRef : Bool
  registered : Bool
  deriving DecidableEq

/-- Initial `usePageContext` state: `useState(null)`, no subscription. -/
def pcInit : PCState :=
  { pageContext := none, unsubscribeRef := false, registered := false }

/-- The `initPageContext` mount effect (no-errorHandler path): read
`getCurrentPageContext()`, publish it, subscribe and store the returned
unsubscribe. If the read throws, the catch logs and nothing is set. -/
def pcMount (getCur : Except String (Option PageContextVal)) (s : PCState) : PCState :=
  match getCur with
  | Except.ok c => { pageContext := c, unsubscribeRef := true, registered := true }
  | Except.error _ => s

/-- A page-context push: delivered only while the subscription is still
registered; the handler calls `setPageContext(newContext)` with no
mounted guard. -/
def pcPush (s : PCState) (c : PageContextVal) : PCState :=
  if s.registered then { s with pageContext := some c } else s

/-- The `usePageContext` cleanup: if `unsubscribeRef.current` is non-null,
invoke it inside try/catch and null the ref; on a throwing unsubscribe the
ref is not nulled and the capability keeps the subscription. The exception
is always swallowed. -/
def pcTeardown (removal : Except String Unit) (s : PCState) :
    PCState × Nat × Option String :=
  if s.unsubscribeRef then
    match removal with
    | Except.ok _ => ({ s with unsubscribeRef := false, registered := false }, 1, none)
    | Except.error _ => (s, 1, none)
  else (s, 0, none)

/-! ## useSettings (unnamed hook source, first part) -/

/-- The reactive state of `useSettings`: `value` is `T | undefined`
(initialised to the caller-supplied `defaultValue`). -/
structure SettingsState (T : Type) where
  value : Option T
  isLoading : Bool
  error : Option String
  deriving DecidableEq

/-- Initial `useSettings` state: `useState(defaultValue)`. -/
def settingsInit {T : Type} (defaultValue : Option T) : SettingsState T :=
  { value := defaultValue, isLoading := false, error := none }

/-- The mount-time `loadSetting` of `useSettings`. The capability outcome
is `settingsService.getSetting?.(settingKey)`: it may throw, or resolve to
`undefined`, `null` or a value. The saved value is published only when it
is neither `undefined` nor `null`; a read failure is caught and recorded. -/
def loadSetting {T : Type} (key : String) (saved : Except String (JSVal T))
    (s : SettingsState T) : SettingsState T :=
  let s1 : SettingsState T := { s with isLoading := true, error := none }
  match saved with
  | Except.ok sv =>
      let s2 := match sv with
        | JSVal.val v => { s1 with value := some v }
        | _ => s1
      { s2 with isLoading := false }
  | Except.error _ =>
      let msg := "Failed to load setting " ++ key
      { s1 with error := some msg, isLoading := false }

/-- The `getSetting` callback of `useSettings`: absent service throws
`Settings service not available`; a capability failure is logged and
re-thrown (`throw err` in the source). -/
def settingsGetSetting {T : Type} (svc : Option (Except String (JSVal T))) :
    OpResult Unit (Option (JSVal T)) :=
  match svc with
  | none =>
      { state := (), result := none, calls := 0,
        thrown := some "Settings service not available" }
  | some (Except.ok v) =>
      { state := (), result := some v, calls := 1, thrown := none }
  | some (Except.error e) =>
      { state := (), result := none, calls := 1, thrown := some e }

/-! ## Spec-modelled components

The `utils/errorHandling` module (ErrorHandler / ResilienceEngine) and
the keyed-state manager behind `services.pluginState.configure` are
imported or called by the sources but their implementation file is not in
the repository; the following definitions are modelled from the spec. -/

/-- Modelled from the spec: §4.2 ResilienceEngine `runAsync` under
strategy `retry` — the implementation file `utils/errorHandling` is
imported by the hooks but absent from the repository sources. Executes
`op`; on failure, while `retryCount < maxRetries`, increments and
retries; once `retryCount == maxRetries`, surfaces the error. `op` is
indexed by the attempt number; the second component of the result is the
total number of attempts made. -/
def runRetryGo {α : Type} (op : Nat → Except String α) (attempt : Nat) :
    Nat → Except String α × Nat
  | 0 =>
      (match op attempt with
       | Except.ok a => (Except.ok a, attempt + 1)
       | Except.error e => (Except.error e, attempt + 1))
  | r + 1 =>
      (match op attempt with
       | Except.ok a => (Except.ok a, attempt + 1)
       | Except.error _ => runRetryGo op (attempt + 1) r)

/-- Modelled from the spec: §4.2 — `runAsync(op, policy)` with strategy
`retry` and `maxRetries` from the policy, starting at attempt 0. -/
def runAsyncRetry {α : Type} (op : Nat → Except String α) (maxRetries : Nat) :
    Except String α × Nat :=
  runRetryGo op 0 maxRetries

/-- Error kinds of the layer (spec §7, closed set). -/
inductive ErrorKind where
  | serviceUnavailable : ErrorKind
  | configuration : ErrorKind
  | validation : ErrorKind
  | sizeLimitExceeded : ErrorKind
  | network : ErrorKind
  | unknown : ErrorKind
  deriving DecidableEq

/-- A structured error record (spec §3): kind, technical message,
user-facing message, retryability. -/
structure ErrorRecord where
  kind : ErrorKind
  message : String
  userMessage : String
  retryable : Bool
  deriving DecidableEq

/-- Modelled from the spec: §4.5 StateSyncManager configuration
(`configure({ pluginScopeId, strategy, maxBytes })`) — the manager behind
`services.pluginState.configure` is host/spec-level; only its callers
appear in the sources. -/
structure SyncConfig where
  pluginScopeId : String
  persistent : Bool
  maxBytes : Nat
  deriving DecidableEq

/-- Modelled from the spec: §4.5 StateSyncManager — holds the optional
configuration (set by `configure`, absent before it) and the local
snapshot. -/
structure StateSyncManager (T : Type) where
  config : Option SyncConfig
  snapshot : Option T
  deriving DecidableEq

/-- The `Configuration` error produced when a state method is called
before `configure` (spec §4.5: non-retryable, surfaced immediately). -/
def configurationError : ErrorRecord :=
  { kind := ErrorKind.configuration,
    message := "State method called before configure",
    userMessage := "Plugin state is not configured",
    retryable := false }

/-- Modelled from the spec: §4.5 `saveState(payload)` — before
`configure` it yields a `Configuration` error without touching the
capability; configured, it measures the serialized size, rejects
oversized payloads with `SizeLimitExceeded` before any write, and
otherwise writes the full payload through the capability (outcome given
explicitly), replacing the snapshot on success. -/
def ssmSaveState {T : Type} (m : StateSyncManager T) (payload : T)
    (sizeBytes : Nat) (write : Except String Unit) :
    OpResult (StateSyncManager T) (Except ErrorRecord Unit) :=
  match m.config with
  | none =>
      { state := m, result := Except.error configurationError,
        calls := 0, thrown := none }
  | some cfg =>
      if sizeBytes > cfg.maxBytes then
        { state := m,
          result := Except.error
            { kind := ErrorKind.sizeLimitExceeded,
              message := "Payload exceeds maxBytes",
              userMessage := "The data is too large to save",
              retryable := false },
          calls := 0, thrown := none }
      else
        match write with
        | Except.ok _ =>
            { state := { m with snapshot := some payload },
              result := Except.ok (), calls := 1, thrown := none }
        | Except.error e =>
            { state := m,
              result := Except.error
                { kind := ErrorKind.network, message := e,
                  userMessage := "Saving failed", retryable := true },
              calls := 1, thrown := none }

/-- Modelled from the spec: §4.5 `getState()` — before `configure` it
yields a `Configuration` error without touching the capability;
configured, it reads through the capability with strategy `fallback`
(fallback `null`), so a read failure degrades to no prior state. -/
def ssmGetState {T : Type} (m : StateSyncManager T)
    (read : Except String (Option T)) :
    OpResult (StateSyncManager T) (Except ErrorRecord (Option T)) :=
  match m.config with
  | none =>
      { state := m, result := Except.error configurationError,
        calls := 0, thrown := none }
  | some _ =>
      match read with
      | Except.ok v =>
          { state := m, result := Except.ok v, calls := 1, thrown := none }
      | Except.error _ =>
          { state := m, result := Except.ok none, calls := 1, thrown := none }

/-- Modelled from the spec: §4.5 `clearState()` — before `configure` it
yields a `Configuration` error without touching the capability;
configured, it clears through the capability and resets the local
snapshot to `null` on success. -/
def ssmClearState {T : Type} (m : StateSyncManager T)
    (clear : Except String Unit) :
    OpResult (StateSyncManager T) (Except ErrorRecord Unit) :=
  match m.config with
  | none =>
      { state := m, result := Except.error configurationError,
        calls := 0, thrown := none }
  | some _ =>
      match clear with
      | Except.ok _ =>
          { state := { m with snapshot := none },
            result := Except.ok (), calls := 1, thrown := none }
      | Except.error e =>
          { state := m,
            result := Except.error
              { kind := ErrorKind.network, message := e,
                userMessage := "Clearing failed", retryable := true },
            calls := 1, thrown := none }

/-! ## Helper predicates and lemmas -/

/-- Whether an `Except` outcome is a failure. -/
def exceptIsError {ε α : Type} : Except ε α → Bool
  | Except.error _ => true
  | Except.ok _ => false

/-- When no unsubscribe function throws, the `usePluginState` subscription
cleanup invokes all of them and propagates nothing. -/
lemma psCleanup_allOk (fns : List (Except String Unit))
    (hok : ∀ f ∈ fns, f = Except.ok ()) :
    psCleanup fns = (fns.length, none) := by
  induction fns with
  | nil => rfl
  | cons f rest ih =>
      have hf : f = Except.ok () := hok f (by simp)
      have hr : ∀ g ∈ rest, g = Except.ok () := fun g hg => hok g (by simp [hg])
      simp [psCleanup, hf, ih hr]

/-- A permanently failing operation run through the retry loop starting at
`attempt` with `r` retries remaining makes `r + 1` further attempts and
ends in a failure. -/
lemma runRetryGo_fail {α : Type} (op : Nat → Except String α)
    (hop : ∀ i, exceptIsError (op i) = true) :
    ∀ r a, (runRetryGo op a r).2 = a + r + 1 ∧
      exceptIsError (runRetryGo op a r).1 = true := by
  intro r
  induction r with
  | zero =>
      intro a
      have h := hop a
      cases hcase : op a with
      | ok x => rw [hcase] at h; simp [exceptIsError] at h
      | error e => simp [runRetryGo, hcase, exceptIsError]
  | succ n ih =>
      intro a
      have h := hop a
      cases hcase : op a with
      | ok x => rw [hcase] at h; simp [exceptIsError] at h
      | error e =>
          have := ih (a + 1)
          simp only [runRetryGo, hcase]
          constructor
          · rw [this.1]; omega
          · exact this.2

/-! ## Claim theorems -/

/-- C1 counterexample: for the theme binding, a push delivered after a
teardown whose listener removal threw still changes the published value.
Concretely: mount publishes `light`; teardown begins and
`removeThemeChangeListener` throws (caught and logged); a subsequent push
of `dark` changes `currentTheme` from `light` to `dark`, so the claim
that handling a post-teardown push never changes the last-published value
is false. -/
theorem c1_counterexample :
    ((themeTeardown (Except.error "cleanup failed")
        (themeMount (Except.ok "light") themeInit)).1).currentTheme = "light" ∧
    (themePush ((themeTeardown (Except.error "cleanup failed")
        (themeMount (Except.ok "light") themeInit)).1) "dark").currentTheme = "dark" := by
  exact ⟨rfl, rfl⟩

/-- C1 amended: for the plugin-state binding every push handler is
guarded by the mounted flag, so after teardown a push never changes the
state; for the theme and page-context bindings a post-teardown push is
dropped provided the listener removal succeeded (if the removal throws,
the listener stays registered and a later push still changes the
published value, as the counterexample shows). The `ht`/`hp` hypotheses
are the reachability invariant that the registered listener and the
stored ref are set together. -/
theorem c1_post_teardown_push {T : Type} (s : PSState T) (v : Option T)
    (t : ThemeState) (p : PCState) (nt : String) (c : PageContextVal)
    (hs : s.isMounted = false) (ht : t.registered = t.listenerRef)
    (hp : p.registered = p.unsubscribeRef) :
    psHandleSavePush s v = s ∧ psHandleRestorePush s v = s ∧
    psHandleClearPush s = s ∧
    themePush (themeTeardown (Except.ok ()) t).1 nt
      = (themeTeardown (Except.ok ()) t).1 ∧
    pcPush (pcTeardown (Except.ok ()) p).1 c
      = (pcTeardown (Except.ok ()) p).1 := by
  refine ⟨?_, ?_, ?_, ?_, ?_⟩
  · simp [psHandleSavePush, hs]
  · simp [psHandleRestorePush, hs]
  · simp [psHandleClearPush, hs]
  · cases hL : t.listenerRef with
    | true => simp [themeTeardown, hL, themePush]
    | false =>
        rw [hL] at ht
        simp [themeTeardown, hL, themePush, ht]
  · cases hU : p.unsubscribeRef with
    | true => simp [pcTeardown, hU, pcPush]
    | false =>
        rw [hU] at hp
        simp [pcTeardown, hU, pcPush, hp]

/-- C1 witness: the amended property evaluated at concrete inputs (an
unmounted plugin-state binding and freshly initialised theme/page-context
bindings). -/
theorem c1_post_teardown_push_witness :
    psHandleSavePush (psUnmount (psInit Nat)) (some 3) = psUnmount (psInit Nat) ∧
    psHandleRestorePush (psUnmount (psInit Nat)) (some 3) = psUnmount (psInit Nat) ∧
    psHandleClearPush (psUnmount (psInit Nat)) = psUnmount (psInit Nat) ∧
    themePush (themeTeardown (Except.ok ()) themeInit).1 "dark"
      = (themeTeardown (Except.ok ()) themeInit).1 ∧
    pcPush (pcTeardown (Except.ok ()) pcInit).1 ⟨"p1", "Home", "/", false⟩
      = (pcTeardown (Except.ok ()) pcInit).1 :=
  c1_post_teardown_push (psUnmount (psInit Nat)) (some 3) themeInit pcInit
    "dark" ⟨"p1", "Home", "/", false⟩ rfl rfl rfl

/-- C2 counterexample: the plugin-state binding subscribed to the
capability, yet its subscription cleanup (`cleanupFns.forEach(fn => fn())`)
has no try/catch: an unsubscribe that throws `boom` propagates the
exception instead of being caught and logged, so the claim is false for
that binding. -/
theorem c2_counterexample :
    (psCleanup [Except.error "boom", Except.ok ()]).2 = some "boom" ∧
    (psCleanup [Except.error "boom", Except.ok ()]).1 = 1 := by
  exact ⟨rfl, rfl⟩

/-- C2 amended: for the theme and page-context bindings the stored
remove-listener/unsubscribe is invoked exactly once per teardown, a second
cleanup invocation after a successful one is a no-op (the nulled ref
guard), and a throwing unsubscribe is caught and never re-thrown; the
plugin-state binding's subscription cleanup invokes every unsubscribe
exactly once when none throws, but it does not catch failures: a throwing
unsubscribe propagates and the remaining unsubscribes are skipped. -/
theorem c2_cleanup_once (t : ThemeState) (p : PCState)
    (rem rem2 : Except String Unit) (fns : List (Except String Unit)) (e : String)
    (ht : t.listenerRef = true) (hp : p.unsubscribeRef = true)
    (hok : ∀ f ∈ fns, f = Except.ok ()) :
    (themeTeardown rem t).2.1 = 1 ∧
    (themeTeardown rem t).2.2 = none ∧
    (themeTeardown rem2 (themeTeardown (Except.ok ()) t).1).2.1 = 0 ∧
    (themeTeardown rem2 (themeTeardown (Except.ok ()) t).1).1
      = (themeTeardown (Except.ok ()) t).1 ∧
    (pcTeardown rem p).2.1 = 1 ∧
    (pcTeardown rem p).2.2 = none ∧
    (pcTeardown rem2 (pcTeardown (Except.ok ()) p).1).2.1 = 0 ∧
    (pcTeardown rem2 (pcTeardown (Except.ok ()) p).1).1
      = (pcTeardown (Except.ok ()) p).1 ∧
    psCleanup fns = (fns.length, none) ∧
    (psCleanup (Except.error e :: fns)).2 = some e := by
  refine ⟨?_, ?_, ?_, ?_, ?_, ?_, ?_, ?_, psCleanup_allOk fns hok, ?_⟩
  · cases rem <;> simp [themeTeardown, ht]
  · cases rem <;> simp [themeTeardown, ht]
  · simp [themeTeardown, ht]
  · simp [themeTeardown, ht]
  · cases rem <;> simp [pcTeardown, hp]
  · cases rem <;> simp [pcTeardown, hp]
  · simp [pcTeardown, hp]
  · simp [pcTeardown, hp]
  · simp [psCleanup]

/-- C2 witness: the amended property at concrete inputs — mounted theme
and page-context bindings, a throwing removal, and a two-element
unsubscribe list. -/
theorem c2_cleanup_once_witness :
    (themeTeardown (Except.error "x") (themeMount (Except.ok "light") themeInit)).2.1 = 1 ∧
    (themeTeardown (Except.error "x") (themeMount (Except.ok "light") themeInit)).2.2 = none ∧
    (themeTeardown (Except.error "x")
      (themeTeardown (Except.ok ()) (themeMount (Except.ok "light") themeInit)).1).2.1 = 0 ∧
    (themeTeardown (Except.error "x")
      (themeTeardown (Except.ok ()) (themeMount (Except.ok "light") themeInit)).1).1
      = (themeTeardown (Except.ok ()) (themeMount (Except.ok "light") themeInit)).1 ∧
    (pcTeardown (Except.error "x") (pcMount (Except.ok none) pcInit)).2.1 = 1 ∧
    (pcTeardown (Except.error "x") (pcMount (Except.ok none) pcInit)).2.2 = none ∧
    (pcTeardown (Except.error "x")
      (pcTeardown (Except.ok ()) (pcMount (Except.ok none) pcInit)).1).2.1 = 0 ∧
    (pcTeardown (Except.error "x")
      (pcTeardown (Except.ok ()) (pcMount (Except.ok none) pcInit)).1).1
      = (pcTeardown (Except.ok ()) (pcMount (Except.ok none) pcInit)).1 ∧
    psCleanup [Except.ok (), Except.ok ()] = (2, none) ∧
    (psCleanup (Except.error "boom" :: [Except.ok (), Except.ok ()])).2 = some "boom" :=
  c2_cleanup_once (themeMount (Except.ok "light") themeInit)
    (pcMount (Except.ok none) pcInit) (Except.error "x") (Except.error "x")
    [Except.ok (), Except.ok ()] "boom" rfl rfl (by simp)

/-- C3: every binding created against an absent capability reports
`isAvailable = false`, and each of the enumerated operations
(get/post/put/delete, setTheme/toggleTheme, saveState/clearState) makes
zero capability calls and returns early with a degraded result (a stored
error or a warning) instead of calling through. -/
theorem c3_absent_capability {T : Type} (url : String) (v : T)
    (s : APIRequestState T) (ps : PSState T) :
    isAvailable (none : Option (Except String (Option T))) = false ∧
    isAvailable (none : Option (Except String Unit)) = false ∧
    (apiGet url none s).calls = 0 ∧ (apiGet url none s).result = none ∧
    (apiGet url none s).state.error = some "API service not available" ∧
    (apiPost url none s).calls = 0 ∧ (apiPost url none s).result = none ∧
    (apiPut url none s).calls = 0 ∧ (apiPut url none s).result = none ∧
    (apiDel url (none : Option (Except String Unit)) s).calls = 0 ∧
    (apiDel url (none : Option (Except String Unit)) s).result = false ∧
    (setThemeOp none).1 = 0 ∧ (setThemeOp none).2 = none ∧
    (toggleThemeOp none).1 = 0 ∧ (toggleThemeOp none).2 = none ∧
    (psSaveState none v ps).calls = 0 ∧ (psSaveState none v ps).thrown = none ∧
    (psSaveState none v ps).state.error
      = some "PluginState service is not available" ∧
    (psClearState none ps).calls = 0 ∧ (psClearState none ps).thrown = none ∧
    (psClearState none ps).state.error
      = some "PluginState service is not available" := by
  refine ⟨rfl, rfl, rfl, rfl, rfl, rfl, rfl, rfl, rfl, rfl, rfl, rfl, rfl,
    rfl, rfl, rfl, rfl, rfl, rfl, rfl, rfl⟩

/-- C4 counterexample: the `get` verb of `useAPI` does not route through a
retrying engine — against a permanently failing capability it makes
exactly one attempt, not `maxRetries + 1 = 4` (with the default
`maxRetries = 3`), so the claim as stated is false. -/
theorem c4_counterexample :
    (apiGet "/api/data" (some (Except.error "boom")) (apiInitialState Nat)).calls = 1 ∧
    (apiGet "/api/data" (some (Except.error "boom")) (apiInitialState Nat)).calls ≠ 3 + 1 := by
  exact ⟨rfl, by decide⟩

/-- C4 amended: under strategy `retry` with `maxRetries = N`, the
spec-modelled resilience engine attempts a permanently failing operation
exactly `N + 1` times and surfaces a single terminal failure; the
RequestClient verbs, however, do not route through it: each verb invokes
the capability exactly once per call and surfaces exactly one stored
error record. -/
theorem c4_retry_bound {T : Type} (N : Nat) (op : Nat → Except String T)
    (url e1 : String) (s : APIRequestState T)
    (hop : ∀ i, exceptIsError (op i) = true) :
    (runAsyncRetry op N).2 = N + 1 ∧
    exceptIsError (runAsyncRetry op N).1 = true ∧
    (apiGet url (some (Except.error e1)) s).calls = 1 ∧
    (apiGet url (some (Except.error e1)) s).state.error
      = some ("GET " ++ url ++ " failed: " ++ e1) ∧
    (apiPost url (some (Except.error e1)) s).calls = 1 ∧
    (apiPut url (some (Except.error e1)) s).calls = 1 ∧
    (apiDel url (some (Except.error e1)) s).calls = 1 := by
  have h := runRetryGo_fail op hop N 0
  refine ⟨?_, ?_, rfl, rfl, rfl, rfl, rfl⟩
  · rw [runAsyncRetry, h.1]; omega
  · exact h.2

/-- C4 witness: the amended property at a concrete permanently failing
operation with `maxRetries = 3`. -/
theorem c4_retry_bound_witness :
    (runAsyncRetry (fun _ => (Except.error "boom" : Except String Nat)) 3).2 = 3 + 1 ∧
    exceptIsError (runAsyncRetry (fun _ => (Except.error "boom" : Except String Nat)) 3).1
      = true ∧
    (apiGet "/u" (some (Except.error "down")) (apiInitialState Nat)).calls = 1 ∧
    (apiGet "/u" (some (Except.error "down")) (apiInitialState Nat)).state.error
      = some ("GET " ++ "/u" ++ " failed: " ++ "down") ∧
    (apiPost "/u" (some (Except.error "down")) (apiInitialState Nat)).calls = 1 ∧
    (apiPut "/u" (some (Except.error "down")) (apiInitialState Nat)).calls = 1 ∧
    (apiDel "/u" (some (Except.error "down")) (apiInitialState Nat)).calls = 1 :=
  c4_retry_bound 3 (fun _ => (Except.error "boom" : Except String Nat))
    "/u" "down" (apiInitialState Nat) (fun _ => rfl)

/-- C5 counterexample: `saveState` of `usePluginState` re-throws the
capability failure to its caller (`throw err` in the source) instead of
only surfacing a stored message, so the claim that no operation of the
layer ever re-throws across the UI boundary is false. -/
theorem c5_counterexample :
    (psSaveState (some (Except.error "boom")) (42 : Nat) (psInit Nat)).thrown
      = some "boom" := by
  exact rfl

/-- C5 amended: after a failure the request verbs surface the error only
as a stored message plus logged detail and never re-throw; `saveState`,
`clearState` and `getSetting`, however, record the error and then
re-throw the exception to their caller. -/
theorem c5_error_surfacing {T : Type} (url : String)
    (svc : Option (Except String (Option T))) (dsvc : Option (Except String Unit))
    (s : APIRequestState T) (ps : PSState T) (v : T) (e : String)
    (hm : ps.isMounted = true) :
    (apiGet url svc s).thrown = none ∧
    (apiPost url svc s).thrown = none ∧
    (apiPut url svc s).thrown = none ∧
    (apiDel url dsvc s).thrown = none ∧
    (psSaveState (some (Except.error e)) v ps).thrown = some e ∧
    (psSaveState (some (Except.error e)) v ps).state.error = some e ∧
    (psClearState (some (Except.error e)) ps).thrown = some e ∧
    (psClearState (some (Except.error e)) ps).state.error = some e ∧
    (settingsGetSetting (some (Except.error e)) :
      OpResult Unit (Option (JSVal T))).thrown = some e := by
  refine ⟨?_, ?_, ?_, ?_, rfl, ?_, rfl, ?_, rfl⟩
  · cases svc with
    | none => rfl
    | some o => cases o with
      | ok d => cases d <;> rfl
      | error e2 => rfl
  · cases svc with
    | none => rfl
    | some o => cases o with
      | ok d => cases d <;> rfl
      | error e2 => rfl
  · cases svc with
    | none => rfl
    | some o => cases o with
      | ok d => cases d <;> rfl
      | error e2 => rfl
  · cases dsvc with
    | none => rfl
    | some o => cases o <;> rfl
  · simp [psSaveState, hm]
  · simp [psClearState, hm]

/-- C5 witness: the amended property at concrete inputs. -/
theorem c5_error_surfacing_witness :
    (apiGet "/u" (some (Except.error "boom")) (apiInitialState Nat)).thrown = none ∧
    (apiPost "/u" (some (Except.error "boom")) (apiInitialState Nat)).thrown = none ∧
    (apiPut "/u" (some (Except.error "boom")) (apiInitialState Nat)).thrown = none ∧
    (apiDel "/u" (some (Except.error "boom")) (apiInitialState Nat)).thrown = none ∧
    (psSaveState (some (Except.error "boom")) (7 : Nat) (psInit Nat)).thrown = some "boom" ∧
    (psSaveState (some (Except.error "boom")) (7 : Nat) (psInit Nat)).state.error
      = some "boom" ∧
    (psClearState (some (Except.error "boom")) (psInit Nat)).thrown = some "boom" ∧
    (psClearState (some (Except.error "boom")) (psInit Nat)).state.error = some "boom" ∧
    (settingsGetSetting (some (Except.error "boom")) :
      OpResult Unit (Option (JSVal Nat))).thrown = some "boom" :=
  c5_error_surfacing "/u" (some (Except.error "boom")) (some (Except.error "boom"))
    (apiInitialState Nat) (psInit Nat) 7 "boom" rfl

/-- C6: calling `saveState`, `getState` or `clearState` on the
spec-modelled StateSyncManager before `configure` yields a
`Configuration` error that is surfaced immediately as the result (not
silently swallowed), the capability is never touched, and nothing is
thrown (no crash). -/
theorem c6_configuration_gate {T : Type} (m : StateSyncManager T) (payload : T)
    (sz : Nat) (w : Except String Unit) (r : Except String (Option T))
    (c : Except String Unit) (h : m.config = none) :
    (ssmSaveState m payload sz w).result = Except.error configurationError ∧
    (ssmSaveState m payload sz w).calls = 0 ∧
    (ssmSaveState m payload sz w).thrown = none ∧
    (ssmGetState m r).result = Except.error configurationError ∧
    (ssmGetState m r).calls = 0 ∧
    (ssmGetState m r).thrown = none ∧
    (ssmClearState m c).result = Except.error configurationError ∧
    (ssmClearState m c).calls = 0 ∧
    (ssmClearState m c).thrown = none ∧
    configurationError.kind = ErrorKind.configuration ∧
    configurationError.retryable = false := by
  refine ⟨?_, ?_, ?_, ?_, ?_, ?_, ?_, ?_, ?_, rfl, rfl⟩ <;>
    simp [ssmSaveState, ssmGetState, ssmClearState, h]

/-- C6 witness: the configuration gate evaluated at a concrete
unconfigured manager. -/
theorem c6_configuration_gate_witness :
    (ssmSaveState (⟨none, none⟩ : StateSyncManager Nat) 5 10 (Except.ok ())).result
      = Except.error configurationError ∧
    (ssmSaveState (⟨none, none⟩ : StateSyncManager Nat) 5 10 (Except.ok ())).calls = 0 ∧
    (ssmSaveState (⟨none, none⟩ : StateSyncManager Nat) 5 10 (Except.ok ())).thrown = none ∧
    (ssmGetState (⟨none, none⟩ : StateSyncManager Nat) (Except.ok none)).result
      = Except.error configurationError ∧
    (ssmGetState (⟨none, none⟩ : StateSyncManager Nat) (Except.ok none)).calls = 0 ∧
    (ssmGetState (⟨none, none⟩ : StateSyncManager Nat) (Except.ok none)).thrown = none ∧
    (ssmClearState (⟨none, none⟩ : StateSyncManager Nat) (Except.ok ())).result
      = Except.error configurationError ∧
    (ssmClearState (⟨none, none⟩ : StateSyncManager Nat) (Except.ok ())).calls = 0 ∧
    (ssmClearState (⟨none, none⟩ : StateSyncManager Nat) (Except.ok ())).thrown = none ∧
    configurationError.kind = ErrorKind.configuration ∧
    configurationError.retryable = false :=
  c6_configuration_gate (⟨none, none⟩ : StateSyncManager Nat) 5 10
    (Except.ok ()) (Except.ok none) (Except.ok ()) rfl

/-- C7: a failure of the storage read performed by the mount-time
`loadState` never propagates an exception out of the initializer (the
catch records the message and swallows it) and the published state
degrades to the no-prior-state value `null`. -/
theorem c7_load_failure_degrades {T : Type} (e : String) :
    (psLoadState (some (Except.error e)) true (psInit T)).state.state = none ∧
    (psLoadState (some (Except.error e)) true (psInit T)).thrown = none ∧
    (psLoadState (some (Except.error e)) true (psInit T)).state.isLoading = false ∧
    (psLoadState (some (Except.error e)) true (psInit T)).state.error = some e := by
  refine ⟨?_, rfl, ?_, ?_⟩ <;> simp [psLoadState, psInit]

/-- C8 counterexample: the never-called `useAPI` state initialises `data`
to `null`, not `undefined`, so the claimed `data = undefined`
representation of the never-called state is false. -/
theorem c8_counterexample :
    (apiInitialState Nat).data = JSVal.null ∧
    (apiInitialState Nat).data ≠ (JSVal.undef : JSVal Nat) := by
  exact ⟨rfl, by simp [apiInitialState]⟩

/-- C8 amended: after a successful `delete` the RequestClient state is
`data = null`, `error = null` (and `loading = false`); the never-called
state, however, is the identical state — the hook initialises `data` to
`null`, not `undefined` — so the two are not distinguishable. -/
theorem c8_delete_state {T : Type} (url : String) (s : APIRequestState T) :
    (apiDel url (some (Except.ok ())) s).state.data = JSVal.null ∧
    (apiDel url (some (Except.ok ())) s).state.error = none ∧
    (apiDel url (some (Except.ok ())) s).state.loading = false ∧
    (apiDel url (some (Except.ok ())) s).state = apiInitialState T ∧
    (apiDel url (some (Except.ok ())) s).result = true := by
  exact ⟨rfl, rfl, rfl, rfl, rfl⟩

/-- C9: for a mounted binding, `saveState` and `clearState` publish the
new snapshot (the payload, or `null`) only on a successful capability
call; when the call throws, the previously published snapshot is
unchanged and only the error string and the loading flag are modified. -/
theorem c9_save_clear_atomic {T : Type} (v : T) (e : String) (s : PSState T)
    (hm : s.isMounted = true) :
    (psSaveState (some (Except.ok ())) v s).state.state = some v ∧
    (psClearState (some (Except.ok ())) s).state.state = none ∧
    (psSaveState (some (Except.error e)) v s).state.state = s.state ∧
    (psSaveState (some (Except.error e)) v s).state.error = some e ∧
    (psSaveState (some (Except.error e)) v s).state.isLoading = false ∧
    (psSaveState (some (Except.error e)) v s).state.isMounted = s.isMounted ∧
    (psClearState (some (Except.error e)) s).state.state = s.state ∧
    (psClearState (some (Except.error e)) s).state.error = some e ∧
    (psClearState (some (Except.error e)) s).state.isLoading = false ∧
    (psClearState (some (Except.error e)) s).state.isMounted = s.isMounted := by
  refine ⟨?_, ?_, ?_, ?_, ?_, ?_, ?_, ?_, ?_, ?_⟩ <;>
    simp [psSaveState, psClearState, hm]

/-- C9 witness: save/clear atomicity at a concrete mounted binding whose
snapshot holds `some 1`. -/
theorem c9_save_clear_atomic_witness :
    (psSaveState (some (Except.ok ())) (2 : Nat) (psHandleSavePush (psInit Nat) (some 1))).state.state
      = some 2 ∧
    (psClearState (some (Except.ok ())) (psHandleSavePush (psInit Nat) (some 1))).state.state
      = none ∧
    (psSaveState (some (Except.error "boom")) (2 : Nat)
      (psHandleSavePush (psInit Nat) (some 1))).state.state
      = (psHandleSavePush (psInit Nat) (some 1)).state ∧
    (psSaveState (some (Except.error "boom")) (2 : Nat)
      (psHandleSavePush (psInit Nat) (some 1))).state.error = some "boom" ∧
    (psSaveState (some (Except.error "boom")) (2 : Nat)
      (psHandleSavePush (psInit Nat) (some 1))).state.isLoading = false ∧
    (psSaveState (some (Except.error "boom")) (2 : Nat)
      (psHandleSavePush (psInit Nat) (some 1))).state.isMounted
      = (psHandleSavePush (psInit Nat) (some 1)).isMounted ∧
    (psClearState (some (Except.error "boom"))
      (psHandleSavePush (psInit Nat) (some 1))).state.state
      = (psHandleSavePush (psInit Nat) (some 1)).state ∧
    (psClearState (some (Except.error "boom"))
      (psHandleSavePush (psInit Nat) (some 1))).state.error = some "boom" ∧
    (psClearState (some (Except.error "boom"))
      (psHandleSavePush (psInit Nat) (some 1))).state.isLoading = false ∧
    (psClearState (some (Except.error "boom"))
      (psHandleSavePush (psInit Nat) (some 1))).state.isMounted
      = (psHandleSavePush (psInit Nat) (some 1)).isMounted :=
  c9_save_clear_atomic 2 "boom" (psHandleSavePush (psInit Nat) (some 1)) rfl

/-- C10: when the settings value read on mount is `undefined` or `null`,
`loadSetting` leaves the published value untouched, so the initial state
(which publishes the caller-supplied `defaultValue`) keeps the default;
a stored `null`/`undefined` never overwrites it. -/
theorem c10_null_keeps_default {T : Type} (key : String) (d : Option T)
    (s : SettingsState T) :
    (settingsInit d).value = d ∧
    (loadSetting key (Except.ok JSVal.undef) s).value = s.value ∧
    (loadSetting key (Except.ok JSVal.null) s).value = s.value ∧
    (loadSetting key (Except.ok JSVal.undef) (settingsInit d)).value = d ∧
    (loadSetting key (Except.ok JSVal.null) (settingsInit d)).value = d := by
  exact ⟨rfl, rfl, rfl, rfl, rfl⟩

end Spec2Proof
